import Mathlib

/-!
Shallow embedding of the accrual-and-settlement engine of `src/main.py`
("Hyper Earning Backend").  Python floats are modelled as exact rationals
(`ℚ`); wall-clock timestamps (`datetime.now().timestamp()`) are rationals
passed explicitly; the process-wide dictionary `user_sessions` is an
association list keyed by the lowercase-normalized wallet string; the
Web3 chain client is an environment record saying whether the RPC client
and signing key are configured and whether the on-chain
build/sign/broadcast/await-receipt sequence succeeds.
-/

namespace HyperEarning

/-- The fixed `STRATEGIES` catalog of `src/main.py` (lines 37-50): for each
strategy its `apy` and `weight` as exact rationals, in source order. -/
def STRATEGIES : List (ℚ × ℚ) :=
  [ (85/100,  15/100),   -- aave_lending
    (78/100,  12/100),   -- compound_lending
    (245/100, 18/100),   -- uniswap_v3_lp
    (125/100, 10/100),   -- curve_stable
    (198/100, 15/100),   -- yearn_vaults
    (312/100, 10/100),   -- convex_boosted
    (167/100,  8/100),   -- balancer_weighted
    (289/100,  5/100),   -- sushiswap_farms
    (425/100,  3/100),   -- mev_arbitrage
    (512/100,  2/100),   -- flashloan_arb
    (95/100,   1/100),   -- governance_rewards
    (142/100,  1/100) ]  -- staking_rewards

/-- `AI_BOOST_MULTIPLIER = 2.5` (line 52). -/
def AI_BOOST_MULTIPLIER : ℚ := 5/2

/-- `total_apy = sum(s["apy"] * s["weight"] for s in STRATEGIES.values()) * AI_BOOST_MULTIPLIER`
(line 62), recomputed on each call to `calculate_yield`; hoisted to a
constant since the catalog is static. -/
def total_apy : ℚ := (STRATEGIES.map (fun s => s.1 * s.2)).sum * AI_BOOST_MULTIPLIER

/-- `calculate_yield` (lines 61-65): returns `(earnings, total_apy)` with
`rate_per_second = total_apy / (365*24*3600)` and
`earnings = principal * rate_per_second * time_seconds`. -/
def calculate_yield (principal time_seconds : ℚ) : ℚ × ℚ :=
  let rate_per_second := total_apy / (365 * 24 * 3600)
  (principal * rate_per_second * time_seconds, total_apy)

/-- A per-wallet entry of the `user_sessions` dictionary (lines 85-89,
99-103): `start_time`, `total_earned` (the unsettled earnings) and
`last_mint` (the last settlement time), all as in the source. -/
structure Session where
  start_time : ℚ
  total_earned : ℚ
  last_mint : ℚ
  deriving DecidableEq, Repr

/-- The chain-client environment: `w3` is truthiness of the global `w3`
(RPC client configured, line 24), `admin` that of `admin_account`
(signing key configured, line 26), and `chainOk` whether the whole
gas-price/nonce/build/sign/broadcast/wait-for-receipt sequence inside
`mint_tokens_to_user` (lines 148-164) runs without raising. -/
structure ChainEnv where
  w3 : Bool
  admin : Bool
  chainOk : Bool
  deriving DecidableEq, Repr

/-- Python `int()` applied to a rational: truncation toward zero. -/
def truncQ (q : ℚ) : ℤ := if 0 ≤ q then ⌊q⌋ else ⌈q⌉

/-- `mint_tokens_to_user` (lines 132-173).  Returns `some ()` when a raw
transaction is broadcast and its receipt awaited (`tx_hash` returned),
`none` otherwise.  The whole chain interaction sits inside a
`try/except` that returns `None` on any exception, so this function
never raises; `token_amount = int(amount_usd * 10**18)` gates the
attempt on `token_amount > 0`. -/
def mint_tokens_to_user (env : ChainEnv) (amount_usd : ℚ) : Option Unit :=
  if !(env.w3 && env.admin) then none
  else if truncQ (amount_usd * 10 ^ 18) ≤ 0 then none
  else if env.chainOk then some () else none

/-- The JSON body returned by `get_metrics` (lines 123-130); the
`total_apy` percent string is kept as the underlying rational. -/
structure Metrics where
  totalProfit : ℚ
  hourlyRate : ℚ
  dailyProfit : ℚ
  activePositions : ℕ
  pendingRewards : ℚ
  total_apy : ℚ
  deriving DecidableEq, Repr

/-- Result of one metrics read on a single session: the updated session,
the returned metrics, whether the settlement branch (line 114) was
entered, and what `mint_tokens_to_user` returned when it was. -/
structure StepResult where
  session : Session
  metrics : Metrics
  attempted : Bool
  txResult : Option Unit
  deriving DecidableEq, Repr

/-- The per-session body of `get_metrics` (lines 105-130).  `now` is
`datetime.now().timestamp()`.  The guard at line 114 is
`time_since_mint >= 5 and w3 and admin_account` — note there is no
positivity check on `total_earned`.  `mint_tokens_to_user` catches every
exception internally and returns `None` instead of raising, so the
`except` handler at line 119 is unreachable and the updates
`last_mint = current_time; total_earned = 0` (lines 117-118) run
whenever the guard holds, whether or not the mint succeeded. -/
def metricsStep (s : Session) (now : ℚ) (env : ChainEnv) : StepResult :=
  let time_running := now - s.start_time
  let time_since_mint := now - s.last_mint
  let principal : ℚ := 100000
  let earnings := (calculate_yield principal time_running).1
  let ta := (calculate_yield principal time_running).2
  let earned1 := s.total_earned + earnings
  let attempted := decide (5 ≤ time_since_mint) && env.w3 && env.admin
  let txResult := if attempted then mint_tokens_to_user env earned1 else none
  let s' := if attempted then { s with total_earned := 0, last_mint := now }
            else { s with total_earned := earned1 }
  let hourly_rate := if 0 < time_running then earnings / time_running * 3600 else 0
  { session := s'
    metrics :=
      { totalProfit := s'.total_earned
        hourlyRate := hourly_rate
        dailyProfit := hourly_rate * 24
        activePositions := STRATEGIES.length
        pendingRewards := s'.total_earned * (1/10)
        total_apy := ta }
    attempted := attempted
    txResult := txResult }

/-- The `user_sessions` dictionary (line 53): an association list from
wallet strings (already lowercase-normalized keys) to sessions. -/
abbrev Store := List (String × Session)

/-- Dictionary lookup `user_sessions[wallet]` / `wallet in user_sessions`. -/
def lookupS : Store → String → Option Session
  | [], _ => none
  | (k', v) :: rest, k => if k' == k then some v else lookupS rest k

/-- Dictionary deletion `del user_sessions[wallet]` (no-op when absent). -/
def eraseS (st : Store) (k : String) : Store :=
  st.filter (fun p => p.1 != k)

/-- Dictionary assignment `user_sessions[wallet] = ...` (insert or replace). -/
def insertS (st : Store) (k : String) (v : Session) : Store :=
  (k, v) :: eraseS st k

/-- A freshly created session (lines 85-89 and 99-103):
`start_time = last_mint = now`, `total_earned = 0`. -/
def freshSession (now : ℚ) : Session :=
  { start_time := now, total_earned := 0, last_mint := now }

/-- `start_engine` (lines 82-90): lowercases the wallet and overwrites its
session with a fresh one; always returns success. -/
def start_engine (st : Store) (walletAddress : String) (now : ℚ) : Store × Bool :=
  (insertS st walletAddress.toLower (freshSession now), true)

/-- `get_metrics` (lines 92-130) at store level: lowercases the
`X-Wallet-Address` header value, lazily creates the session, runs the
per-session step and stores the updated session back. -/
def get_metrics (st : Store) (x_wallet_address : String) (now : ℚ) (env : ChainEnv) :
    Store × StepResult :=
  let wallet := x_wallet_address.toLower
  let s := match lookupS st wallet with
    | some s => s
    | none => freshSession now
  let r := metricsStep s now env
  (insertS st wallet r.session, r)

/-- `stop_engine` (lines 175-180): lowercases the wallet, deletes its
session when present, and always returns `{"success": True}`. -/
def stop_engine (st : Store) (walletAddress : String) : Store × Bool :=
  (eraseS st walletAddress.toLower, true)

/-! ### Helper lemmas -/

/-- The blended rate of the fixed catalog, evaluated exactly:
`Σ(apy × weight) = 1.9278` and `1.9278 × 2.5 = 4.8195 = 9639/2000`. -/
lemma total_apy_eq : total_apy = 9639/2000 := by
  norm_num [total_apy, STRATEGIES, AI_BOOST_MULTIPLIER]

lemma total_apy_pos : 0 < total_apy := by rw [total_apy_eq]; norm_num

lemma calculate_yield_fst (p t : ℚ) :
    (calculate_yield p t).1 = p * (total_apy / (365 * 24 * 3600)) * t := rfl

lemma earnings_nonneg {p t : ℚ} (hp : 0 ≤ p) (ht : 0 ≤ t) :
    0 ≤ (calculate_yield p t).1 := by
  rw [calculate_yield_fst]
  exact mul_nonneg (mul_nonneg hp (div_nonneg total_apy_pos.le (by norm_num))) ht

lemma truncQ_pos {q : ℚ} (h : 1 ≤ q) : 0 < truncQ q := by
  unfold truncQ
  rw [if_pos (le_trans zero_le_one h)]
  exact lt_of_lt_of_le Int.zero_lt_one (Int.le_floor.mpr (by exact_mod_cast h))

lemma lookupS_eraseS_self (st : Store) (k : String) :
    lookupS (eraseS st k) k = none := by
  induction st with
  | nil => rfl
  | cons p rest ih =>
    by_cases h : p.1 = k
    · simpa [eraseS, List.filter, h] using ih
    · simp only [eraseS, List.filter] at ih ⊢
      simp only [show (p.1 != k) = true by simp [h]]
      cases p with
      | mk k' v => simpa [lookupS, show ¬ k' = k from h] using ih

lemma mem_of_mem_eraseS {p : String × Session} {st : Store} {k : String}
    (h : p ∈ eraseS st k) : p ∈ st := (List.mem_filter.mp h).1

lemma lookupS_mem {st : Store} {k : String} {s : Session}
    (h : lookupS st k = some s) : (k, s) ∈ st := by
  induction st with
  | nil => simp [lookupS] at h
  | cons p rest ih =>
    cases p with
    | mk k' v =>
      by_cases hk : k' == k
      · simp only [lookupS, hk, if_pos] at h
        have hv : v = s := by injection h
        have hkk : k' = k := by simpa using hk
        subst hv; subst hkk
        exact List.mem_cons_self _ _
      · simp only [lookupS, hk] at h
        simp only [Bool.false_eq_true, if_false] at h
        exact List.mem_cons_of_mem _ (ih h)

lemma metricsStep_total_earned_nonneg (s : Session) (now : ℚ) (env : ChainEnv)
    (h0 : 0 ≤ s.total_earned) (hst : s.start_time ≤ now) :
    0 ≤ (metricsStep s now env).session.total_earned := by
  simp only [metricsStep]
  by_cases h : (decide (5 ≤ now - s.last_mint) && env.w3 && env.admin) = true
  · simp [h]
  · simp only [Bool.not_eq_true] at h
    simp [h]
    exact add_nonneg h0 (earnings_nonneg (by norm_num) (sub_nonneg.mpr hst))

/-! ### Claim theorems -/

/-- BlendedRate as the spec words it:
`Σ(strategy.annualizedYield × strategy.weight) × boostMultiplier`
over the fixed catalog. -/
def blendedRate_spec : ℚ := (STRATEGIES.map (fun s => s.1 * s.2)).sum * AI_BOOST_MULTIPLIER

/-- C5: for every principal and every elapsedSeconds ≥ 0, `calculate_yield`
returns exactly `principal × (rate / secondsPerYear) × elapsedSeconds`
with `secondsPerYear = 365×24×3600` and rate the spec's blended rate
`Σ(annualizedYield × weight) × boostMultiplier` over the fixed catalog. -/
theorem calculate_yield_spec_formula (p t : ℚ) (ht : 0 ≤ t) :
    (calculate_yield p t).1 = p * (blendedRate_spec / (365 * 24 * 3600)) * t := by
  rw [calculate_yield_fst]
  rfl

/-- Witness for C5 at `p = 100000`, `t = 3600`. -/
theorem calculate_yield_spec_formula_witness :
    (0:ℚ) ≤ 3600 ∧
      (calculate_yield 100000 3600).1
        = 100000 * (blendedRate_spec / (365 * 24 * 3600)) * 3600 :=
  ⟨by norm_num, calculate_yield_spec_formula 100000 3600 (by norm_num)⟩

/-- C4 counterexample: the blended annualized rate of the program's catalog
is NOT `1.9975 × 2.5 = 4.99375`, and the example accrual of principal
100000 over 3600 seconds is below 56, not approximately 57.0. -/
theorem blended_rate_ne_claimed :
    ¬ (calculate_yield 100000 3600).2 = 499375/100000 ∧
      (calculate_yield 100000 3600).1 < 56 := by
  constructor
  · show ¬ total_apy = 499375/100000
    rw [total_apy_eq]; norm_num
  · rw [calculate_yield_fst, total_apy_eq]; norm_num

/-- C4 amended: the blended annualized rate of the fixed catalog with boost
2.5 equals `1.9278 × 2.5 = 4.8195 = 9639/2000`, and accruing principal
100000 over 3600 elapsed seconds yields exactly `16065/292 ≈ 55.02`. -/
theorem blended_rate_and_example_yield :
    (calculate_yield 100000 3600).2 = 9639/2000 ∧
      (calculate_yield 100000 3600).1 = 16065/292 := by
  constructor
  · show total_apy = 9639/2000
    exact total_apy_eq
  · rw [calculate_yield_fst, total_apy_eq]; norm_num

/-- C9: for nonnegative principal and elapsed times, the accrued earnings
of `calculate_yield` are monotonically non-decreasing in elapsed time
(first conjunct) and in principal (second conjunct). -/
theorem calculate_yield_monotone (p1 p2 t1 t2 : ℚ)
    (hp : 0 ≤ p1) (ht : 0 ≤ t1) (hpp : p1 ≤ p2) (htt : t1 ≤ t2) :
    (calculate_yield p1 t1).1 ≤ (calculate_yield p1 t2).1 ∧
      (calculate_yield p1 t1).1 ≤ (calculate_yield p2 t1).1 := by
  have hc : (0:ℚ) ≤ total_apy / (365 * 24 * 3600) :=
    div_nonneg total_apy_pos.le (by norm_num)
  constructor
  · rw [calculate_yield_fst, calculate_yield_fst]
    exact mul_le_mul_of_nonneg_left htt (mul_nonneg hp hc)
  · rw [calculate_yield_fst, calculate_yield_fst]
    exact mul_le_mul_of_nonneg_right (mul_le_mul_of_nonneg_right hpp hc) ht

/-- Witness for C9 at `p1 = 100000`, `p2 = 200000`, `t1 = 10`, `t2 = 3600`. -/
theorem calculate_yield_monotone_witness :
    (0:ℚ) ≤ 100000 ∧ (0:ℚ) ≤ 10 ∧ (100000:ℚ) ≤ 200000 ∧ (10:ℚ) ≤ 3600 ∧
      ((calculate_yield 100000 10).1 ≤ (calculate_yield 100000 3600).1 ∧
        (calculate_yield 100000 10).1 ≤ (calculate_yield 200000 10).1) :=
  ⟨by norm_num, by norm_num, by norm_num, by norm_num,
    calculate_yield_monotone 100000 200000 10 3600
      (by norm_num) (by norm_num) (by norm_num) (by norm_num)⟩

/-- C8: every metrics read reports
`hourlyRate = earned / elapsedSinceStart × 3600` when
`elapsedSinceStart > 0` and `hourlyRate = 0` otherwise (so the division
never runs with a zero or negative divisor), and
`dailyProfit = hourlyRate × 24`. -/
theorem hourly_daily_rates (s : Session) (now : ℚ) (env : ChainEnv) :
    (metricsStep s now env).metrics.hourlyRate
      = (if 0 < now - s.start_time
          then (calculate_yield 100000 (now - s.start_time)).1 / (now - s.start_time) * 3600
          else 0) ∧
    (metricsStep s now env).metrics.dailyProfit
      = (metricsStep s now env).metrics.hourlyRate * 24 := by
  constructor <;> rfl

/-- C10: every metrics read reports `pendingRewards` equal to exactly one
tenth of the reported `totalProfit` (the post-accrual, post-settlement
unsettled balance). -/
theorem pending_rewards_tenth (s : Session) (now : ℚ) (env : ChainEnv) :
    (metricsStep s now env).metrics.pendingRewards
      = (metricsStep s now env).metrics.totalProfit * (1/10) := rfl

/-- C2 counterexample: a metrics read on session
`{start_time := 100, total_earned := 0, last_mint := 90}` at time 100
with a fully configured chain client has unsettled earnings exactly 0
after its own accrual, yet the settlement branch IS entered and
`last_mint` IS updated to 100 (the claim says neither may happen when
unsettled earnings are zero); the client itself returns no transaction. -/
theorem settlement_attempted_with_zero_earnings :
    (Session.mk 100 0 90).total_earned
        + (calculate_yield 100000 ((100:ℚ) - (Session.mk 100 0 90).start_time)).1 = 0 ∧
      (5:ℚ) ≤ 100 - (Session.mk 100 0 90).last_mint ∧
      (metricsStep (Session.mk 100 0 90) 100 ⟨true, true, true⟩).attempted = true ∧
      (metricsStep (Session.mk 100 0 90) 100 ⟨true, true, true⟩).session.last_mint = 100 ∧
      (metricsStep (Session.mk 100 0 90) 100 ⟨true, true, true⟩).txResult = none := by
  refine ⟨?_, by norm_num, ?_, ?_, ?_⟩
  · rw [calculate_yield_fst]; norm_num
  · simp [metricsStep]
    norm_num
  · simp [metricsStep]
    norm_num
  · simp [metricsStep, mint_tokens_to_user, truncQ, calculate_yield_fst]

/-- C2 amended: on a metrics read the settlement branch (client invocation
plus `last_mint` update) runs if and only if at least 5 seconds have
elapsed since the last settlement AND the RPC client and signing account
are both configured — the trigger performs no positivity check on the
unsettled earnings (a zero amount is filtered out only inside the client,
which then returns no transaction, while `last_mint` is still updated). -/
theorem settlement_trigger_iff (s : Session) (now : ℚ) (env : ChainEnv) :
    (metricsStep s now env).attempted = true
      ↔ (5 ≤ now - s.last_mint ∧ env.w3 = true ∧ env.admin = true) := by
  simp [metricsStep, Bool.and_eq_true, decide_eq_true_iff, and_assoc]

/-- C1 (evidence for the code bug): a metrics read on session
`{start_time := 0, total_earned := 0, last_mint := 0}` at time 10
with RPC client and signing account configured but the on-chain
sequence failing (`chainOk = false`, so the client confirms nothing and
returns no transaction) accrues `357/2336 > 0` unsettled earnings, yet the
read resets `total_earned` to 0 and advances `last_mint` to 10: the
session is NOT left unchanged and the accrued earnings are lost,
because `mint_tokens_to_user` swallows the failure instead of raising
and the state updates of lines 117-118 run anyway. -/
theorem mint_failure_resets_session :
    (metricsStep (Session.mk 0 0 0) 10 ⟨true, true, false⟩).attempted = true ∧
      (metricsStep (Session.mk 0 0 0) 10 ⟨true, true, false⟩).txResult = none ∧
      (Session.mk 0 0 0).total_earned
          + (calculate_yield 100000 ((10:ℚ) - (Session.mk 0 0 0).start_time)).1
        = 357/2336 ∧
      (0:ℚ) < 357/2336 ∧
      (metricsStep (Session.mk 0 0 0) 10 ⟨true, true, false⟩).session.total_earned = 0 ∧
      (metricsStep (Session.mk 0 0 0) 10 ⟨true, true, false⟩).session.last_mint = 10 := by
  refine ⟨?_, ?_, ?_, by norm_num, ?_, ?_⟩
  · simp [metricsStep]
    norm_num
  · simp [metricsStep, mint_tokens_to_user]
  · rw [calculate_yield_fst, total_apy_eq]
    norm_num
  · simp [metricsStep]
    norm_num
  · simp [metricsStep]
    norm_num

/-- C3: when at least 5 seconds have elapsed since the last settlement, the
chain client is configured (`w3` and `admin`), the on-chain sequence
succeeds, and the post-accrual unsettled earnings are positive (with a
positive integer token amount, so the client actually broadcasts and
returns a transaction), the read clears `total_earned` to 0, sets
`last_mint` to the current time, and reports `totalProfit = 0`. -/
theorem settlement_success_resets (s : Session) (now : ℚ) (env : ChainEnv)
    (h5 : 5 ≤ now - s.last_mint) (hw : env.w3 = true) (ha : env.admin = true)
    (hok : env.chainOk = true)
    (hpos : 0 < s.total_earned + (calculate_yield 100000 (now - s.start_time)).1)
    (htok : 0 < truncQ
      ((s.total_earned + (calculate_yield 100000 (now - s.start_time)).1) * 10 ^ 18)) :
    (metricsStep s now env).txResult = some () ∧
      (metricsStep s now env).session.total_earned = 0 ∧
      (metricsStep s now env).session.last_mint = now ∧
      (metricsStep s now env).metrics.totalProfit = 0 := by
  have hgate : ¬ truncQ
      ((s.total_earned + (calculate_yield 100000 (now - s.start_time)).1) * 10 ^ 18) ≤ 0 :=
    not_le.mpr htok
  refine ⟨?_, ?_, ?_, ?_⟩ <;>
    simp [metricsStep, mint_tokens_to_user, h5, hw, ha, hok, hgate]

/-- Witness for C3: a concrete successful settlement read. -/
theorem settlement_success_resets_witness :
    (metricsStep (Session.mk 0 0 0) 10 ⟨true, true, true⟩).txResult = some () ∧
      (metricsStep (Session.mk 0 0 0) 10 ⟨true, true, true⟩).session.total_earned = 0 ∧
      (metricsStep (Session.mk 0 0 0) 10 ⟨true, true, true⟩).session.last_mint = 10 ∧
      (metricsStep (Session.mk 0 0 0) 10 ⟨true, true, true⟩).metrics.totalProfit = 0 :=
  settlement_success_resets (Session.mk 0 0 0) 10 ⟨true, true, true⟩
    (by norm_num) rfl rfl rfl
    (by rw [calculate_yield_fst, total_apy_eq]; norm_num)
    (truncQ_pos (by rw [calculate_yield_fst, total_apy_eq]; norm_num))

/-- The invariant of C6: every session in the store has non-negative
unsettled earnings. -/
def StoreInv (st : Store) : Prop := ∀ p ∈ st, 0 ≤ p.2.total_earned

/-- C6: the invariant `unsettledEarnings ≥ 0` is preserved by
`start_engine`, by `get_metrics` (whether or not a settlement is
attempted — `env` is arbitrary) and by `stop_engine`, provided the
current time is not earlier than the start time of the session being
read. -/
theorem unsettled_nonneg_invariant (st : Store) (w : String) (now : ℚ) (env : ChainEnv)
    (hinv : StoreInv st)
    (hstart : ∀ s, lookupS st w.toLower = some s → s.start_time ≤ now) :
    StoreInv (start_engine st w now).1 ∧
      StoreInv (get_metrics st w now env).1 ∧
      StoreInv (stop_engine st w).1 := by
  refine ⟨?_, ?_, ?_⟩
  · intro p hp
    simp only [start_engine, insertS] at hp
    rcases List.mem_cons.mp hp with rfl | hp'
    · norm_num [freshSession]
    · exact hinv p (mem_of_mem_eraseS hp')
  · intro p hp
    cases hlk : lookupS st w.toLower with
    | none =>
      simp only [get_metrics, hlk, insertS] at hp
      rcases List.mem_cons.mp hp with rfl | hp'
      · exact metricsStep_total_earned_nonneg _ _ _ (le_refl 0) (le_refl now)
      · exact hinv p (mem_of_mem_eraseS hp')
    | some s0 =>
      simp only [get_metrics, hlk, insertS] at hp
      rcases List.mem_cons.mp hp with rfl | hp'
      · exact metricsStep_total_earned_nonneg _ _ _
          (hinv (w.toLower, s0) (lookupS_mem hlk)) (hstart s0 hlk)
      · exact hinv p (mem_of_mem_eraseS hp')
  · intro p hp
    exact hinv p (mem_of_mem_eraseS hp)

/-- Witness for C6 on the empty store. -/
theorem unsettled_nonneg_invariant_witness :
    StoreInv (start_engine [] "A" 0).1 ∧
      StoreInv (get_metrics [] "A" 0 ⟨true, true, true⟩).1 ∧
      StoreInv (stop_engine [] "A").1 :=
  unsettled_nonneg_invariant [] "A" 0 ⟨true, true, true⟩
    (by intro p hp; simp at hp) (by intro s hs; simp [lookupS] at hs)

lemma lookupS_insertS_self (st : Store) (k : String) (v : Session) :
    lookupS (insertS st k v) k = some v := by
  simp [insertS, lookupS]

lemma metricsStep_fresh_session (now : ℚ) (env : ChainEnv) :
    (metricsStep (freshSession now) now env).session = freshSession now := by
  have h5 : ¬ (5:ℚ) ≤ now - now := by rw [sub_self]; norm_num
  simp [metricsStep, freshSession, calculate_yield_fst, h5]

/-- C7: `stop_engine` always reports success and removes the wallet's
session (also when none exists, since the store is arbitrary here), and
a metrics read right after a stop stores a brand-new session with
`start_time = last_mint = now` and zero unsettled earnings. -/
theorem stop_idempotent_fresh_restart (st : Store) (w : String) (now : ℚ) (env : ChainEnv) :
    (stop_engine st w).2 = true ∧
      lookupS (stop_engine st w).1 w.toLower = none ∧
      lookupS (get_metrics (stop_engine st w).1 w now env).1 w.toLower
        = some (Session.mk now 0 now) := by
  refine ⟨rfl, lookupS_eraseS_self st w.toLower, ?_⟩
  have h1 : lookupS (stop_engine st w).1 w.toLower = none := lookupS_eraseS_self st w.toLower
  show lookupS (get_metrics (stop_engine st w).1 w now env).1 w.toLower
    = some (Session.mk now 0 now)
  simp only [get_metrics, h1]
  rw [lookupS_insertS_self]
  rw [metricsStep_fresh_session]
  rfl

end HyperEarning
